import Mathlib

/-!
Shallow embedding of the repository layer of the `connect` contact book
(src/src/db/contact_repo.rs, src/src/db/metadata_repo.rs, src/src/db.rs).

The underlying SQLite/Postgres store is modelled as an explicit state `Db`
holding the rows of each table of the schema, the per-table rowid counters,
and the connection's last-insert rowid.  Each repository method of the
source becomes a Lean function from a `Db` (and the method's arguments) to
a new `Db` paired with an `Except` result, translating the SQL statement
the method executes.
-/

/-- Embeds `models::Contact` (the five column values of table `contacts`). -/
structure Contact where
  first_name : String
  last_name : String
  display_name : String
  email : String
  phone_number : String
deriving Repr, DecidableEq

/-- Embeds `models::IndexedContact`: a `Contact` paired with its store-assigned id. -/
structure IndexedContact where
  id : Int
  contact : Contact
deriving Repr, DecidableEq

/-- Embeds `models::Metadata` as it is bound in `MetadataRepo::create`:
contact id, the two flags, the optional frequency, and the timestamp columns
in their serialized (RFC 3339 string) form. -/
structure Metadata where
  contact_id : Int
  starred : Bool
  is_archived : Bool
  frequency : Option Int
  created_at : String
  updated_at : String
  last_seen_at : Option String
  next_reminder_at : Option String
  last_reminder_at : Option String
deriving Repr, DecidableEq

/-- Embeds the optional per-field update carried by `models::ContactBuilder`
(the `update` payload bound as `$1`..`$5` in `update_contact`). -/
structure ContactUpdates where
  first_name : Option String
  last_name : Option String
  display_name : Option String
  email : Option String
  phone_number : Option String
deriving Repr, DecidableEq

/-- Embeds `models::ContactBuilder`: a target id plus the sparse update. -/
structure ContactBuilder where
  id : Int
  update : ContactUpdates
deriving Repr, DecidableEq

/-- Repository-level failure, as surfaced through `anyhow::Result`:
`notFound` for `RowNotFound` from `fetch_one`, `backend` for any other
store error (for example a query against a table the schema never created). -/
inductive RepoError where
  | notFound
  | backend (msg : String)
deriving Repr, DecidableEq

instance {ε : Type u} {α : Type v} [DecidableEq ε] [DecidableEq α] :
    DecidableEq (Except ε α) := fun x y =>
  match x, y with
  | Except.ok a, Except.ok b =>
      if h : a = b then isTrue (congrArg Except.ok h)
      else isFalse (fun hh => h (Except.ok.inj hh))
  | Except.error a, Except.error b =>
      if h : a = b then isTrue (congrArg Except.error h)
      else isFalse (fun hh => h (Except.error.inj hh))
  | Except.ok _, Except.error _ => isFalse (fun hh => Except.noConfusion hh)
  | Except.error _, Except.ok _ => isFalse (fun hh => Except.noConfusion hh)

/-- The relational store reachable through the pooled connection.
`schema` lists the tables the setup code created; `contacts` and
`contact_metadata` hold the rows of the two schema tables in insertion
order; `metadata_table` holds the rows of a table named `metadata`, when
the schema has one; the counters model SQLite rowid assignment and the
connection-wide `last_insert_rowid()`. -/
structure Db where
  schema : List String
  contacts : List IndexedContact
  contact_metadata : List Metadata
  metadata_table : List Metadata
  next_contact_id : Int
  next_metadata_rowid : Int
  last_insert_rowid : Int
deriving Repr, DecidableEq

/-- The store right after the schema-creation statements have run: the
tables `contacts` and `contact_metadata` exist and are empty (this is the
schema the repository's own setup code creates; no table named `metadata`
is ever created). -/
def Db.init : Db :=
  { schema := ["contacts", "contact_metadata"]
  , contacts := []
  , contact_metadata := []
  , metadata_table := []
  , next_contact_id := 1
  , next_metadata_rowid := 1
  , last_insert_rowid := 0 }

/-- Embeds `MetadataRepo::create` for `Connection`: executes
`INSERT INTO contact_metadata (...) VALUES (?,...,?)` and returns
`result.last_insert_rowid()`. -/
def MetadataRepo.create (db : Db) (metadata : Metadata) : Db × Except RepoError Int :=
  if "contact_metadata" ∈ db.schema then
    let rowid := db.next_metadata_rowid
    ({ db with contact_metadata := db.contact_metadata ++ [metadata]
             , next_metadata_rowid := rowid + 1
             , last_insert_rowid := rowid }
    , Except.ok rowid)
  else
    (db, Except.error (RepoError.backend "no such table: contact_metadata"))

/-- Embeds `MetadataRepo::get_by_id` for `Connection`: executes
`SELECT * FROM metadata WHERE contact_id=$1` with `fetch_one`.  Note that
the table named in the query is `metadata`, not `contact_metadata`. -/
def MetadataRepo.get_by_id (db : Db) (contact_id : Int) : Except RepoError Metadata :=
  if "metadata" ∈ db.schema then
    match db.metadata_table.find? (fun m => m.contact_id == contact_id) with
    | some m => Except.ok m
    | none => Except.error RepoError.notFound
  else
    Except.error (RepoError.backend "no such table: metadata")

/-- Modelled from the spec: `Connection::create_metadata`, called by
`ContactRepo::create_contact`, is defined in src/src/db/connection.rs which
is not under src/ (only its call site is).  Per the spec it creates the
`Metadata` row for the new contact id with `starred=false`,
`is_archived=false`, `frequency=None`, `created_at=updated_at=now`, all
optional timestamps absent, inserting it through the metadata insert.
`now` is the creation-time timestamp in its serialized form. -/
def Connection.create_metadata (db : Db) (contact_id : Int) (now : String) :
    Db × Except RepoError Int :=
  MetadataRepo.create db
    { contact_id := contact_id
    , starred := false
    , is_archived := false
    , frequency := none
    , created_at := now
    , updated_at := now
    , last_seen_at := none
    , next_reminder_at := none
    , last_reminder_at := none }

/-- Embeds `ContactRepo::create_contact` for `Connection`: executes
`INSERT INTO contacts (first_name, last_name, display_name, email,
phone_number) VALUES (?,?,?,?,?)`, reads `last_insert_rowid()` as the new
contact id, then calls `self.create_metadata(contact_id)` (propagating its
failure with `?`) and returns the contact id. -/
def ContactRepo.create_contact (db : Db) (contact : Contact) (now : String) :
    Db × Except RepoError Int :=
  if "contacts" ∈ db.schema then
    let id := db.next_contact_id
    let db1 := { db with contacts := db.contacts ++ [⟨id, contact⟩]
                       , next_contact_id := id + 1
                       , last_insert_rowid := id }
    match Connection.create_metadata db1 id now with
    | (db2, Except.ok _) => (db2, Except.ok id)
    | (db2, Except.error e) => (db2, Except.error e)
  else
    (db, Except.error (RepoError.backend "no such table: contacts"))

/-- The comparison `ORDER BY id` sorts rows by. -/
def idLe (a b : IndexedContact) : Prop := a.id ≤ b.id

instance : DecidableRel idLe := fun a b => Int.decLe a.id b.id

instance : IsTotal IndexedContact idLe := ⟨fun a b => Int.le_total a.id b.id⟩

instance : IsTrans IndexedContact idLe := ⟨fun _ _ _ h1 h2 => le_trans h1 h2⟩

/-- Embeds `ContactRepo::get_all_contacts` for `Connection`: executes
`SELECT id, first_name, last_name, display_name, email, phone_number FROM
contacts ORDER BY id` with `fetch_all`. -/
def ContactRepo.get_all_contacts (db : Db) : Except RepoError (List IndexedContact) :=
  if "contacts" ∈ db.schema then
    Except.ok (db.contacts.insertionSort idLe)
  else
    Except.error (RepoError.backend "no such table: contacts")

/-- The `COALESCE($n, column)` merge of one row: a present update field
replaces the stored value, an absent one leaves it unchanged. -/
def applyUpdates (u : ContactUpdates) (c : Contact) : Contact :=
  { first_name := u.first_name.getD c.first_name
  , last_name := u.last_name.getD c.last_name
  , display_name := u.display_name.getD c.display_name
  , email := u.email.getD c.email
  , phone_number := u.phone_number.getD c.phone_number }

/-- Embeds `ContactRepo::update_contact` for `Connection`: executes
`UPDATE contacts SET first_name = COALESCE($1, first_name), ... WHERE id =
$6` with `execute` and returns `Ok(())` — the row count is never checked,
so the call succeeds whether or not any row matched. -/
def ContactRepo.update_contact (db : Db) (contact : ContactBuilder) :
    Db × Except RepoError Unit :=
  if "contacts" ∈ db.schema then
    ({ db with contacts := db.contacts.map (fun r =>
        if r.id == contact.id then { r with contact := applyUpdates contact.update r.contact }
        else r) }
    , Except.ok ())
  else
    (db, Except.error (RepoError.backend "no such table: contacts"))

/-- Embeds `ContactRepo::get_contact_by_id` for `Connection`: executes
`SELECT * FROM contacts WHERE id=$1` with `fetch_one`, which fails with
`RowNotFound` when no row matches. -/
def ContactRepo.get_contact_by_id (db : Db) (id : Int) : Except RepoError IndexedContact :=
  if "contacts" ∈ db.schema then
    match db.contacts.find? (fun r => r.id == id) with
    | some r => Except.ok r
    | none => Except.error RepoError.notFound
  else
    Except.error (RepoError.backend "no such table: contacts")

/-- Embeds `ContactRepo::delete_contact_by_id` for `Connection`: executes
`DELETE FROM contacts WHERE id=$1 RETURNING id` with `execute` — which
discards the returned rows — and returns `contact_id.last_insert_rowid()`,
the connection's last-insert rowid, unchanged by a DELETE. -/
def ContactRepo.delete_contact_by_id (db : Db) (id : Int) : Db × Except RepoError Int :=
  if "contacts" ∈ db.schema then
    ({ db with contacts := db.contacts.filter (fun r => !(r.id == id)) }
    , Except.ok db.last_insert_rowid)
  else
    (db, Except.error (RepoError.backend "no such table: contacts"))

/-- Embeds `PostgresContactRepo::save_contact` (src/src/db.rs): executes
`INSERT INTO contacts (...) VALUES ($1,...,$5) RETURNING id` with
`fetch_one` and returns the returned id.  No metadata insert of any kind
is performed. -/
def PostgresContactRepo.save_contact (db : Db) (contact : Contact) :
    Db × Except RepoError Int :=
  if "contacts" ∈ db.schema then
    let id := db.next_contact_id
    ({ db with contacts := db.contacts ++ [⟨id, contact⟩]
             , next_contact_id := id + 1 }
    , Except.ok id)
  else
    (db, Except.error (RepoError.backend "no such table: contacts"))

/-- Embeds `PostgresContactRepo::get_all` (src/src/db.rs): the same
`SELECT ... ORDER BY id` as `get_all_contacts`. -/
def PostgresContactRepo.get_all (db : Db) : Except RepoError (List IndexedContact) :=
  if "contacts" ∈ db.schema then
    Except.ok (db.contacts.insertionSort idLe)
  else
    Except.error (RepoError.backend "no such table: contacts")

/-- Entity-construction failure (`ValidationError` of the spec's taxonomy). -/
inductive ValidationError where
  | emptyField
deriving Repr, DecidableEq

/-- Modelled from the spec: `models::Contact::new` lives in src/src/models.rs
which is not under src/ (only its callers and tests are).  Per the spec it
fails with `ValidationError` if any of the four raw inputs is the empty
string (no trimming), and otherwise derives `display_name` by joining first
and last name with a single space. -/
def Contact.new (first_name last_name email phone_number : String) :
    Except ValidationError Contact :=
  if first_name = "" ∨ last_name = "" ∨ email = "" ∨ phone_number = "" then
    Except.error ValidationError.emptyField
  else
    Except.ok
      { first_name := first_name
      , last_name := last_name
      , display_name := first_name ++ " " ++ last_name
      , email := email
      , phone_number := phone_number }

/-- Every contact row owns exactly one `contact_metadata` row keyed by its id. -/
def Db.metaInvariant (db : Db) : Prop :=
  ∀ r ∈ db.contacts, (db.contact_metadata.filter (fun m => m.contact_id == r.id)).length = 1

/-- All stored ids are below the next id the store will assign — true of
every store reachable through the repository operations. -/
def Db.fresh (db : Db) : Prop :=
  (∀ r ∈ db.contacts, r.id < db.next_contact_id) ∧
  (∀ m ∈ db.contact_metadata, m.contact_id < db.next_contact_id)

/-- A concrete metadata value with `contact_id = 1`. -/
def sampleMetadata : Metadata :=
  { contact_id := 1, starred := false, is_archived := false, frequency := none
  , created_at := "2024-01-01T00:00:00.000Z", updated_at := "2024-01-01T00:00:00.000Z"
  , last_seen_at := none, next_reminder_at := none, last_reminder_at := none }

/-- C2: `MetadataRepo::create` with `contact_id = 1` inserts the row into
table `contact_metadata`, but `get_by_id(1)` reads `SELECT * FROM metadata`,
a table the schema never creates, so the read fails with a backend error
instead of returning the inserted `Metadata`. -/
theorem metadata_create_then_get_by_id_errors :
    (MetadataRepo.create Db.init sampleMetadata).2 = Except.ok 1 ∧
    (MetadataRepo.create Db.init sampleMetadata).1.contact_metadata = [sampleMetadata] ∧
    MetadataRepo.get_by_id (MetadataRepo.create Db.init sampleMetadata).1 1 =
      Except.error (RepoError.backend "no such table: metadata") := by
  decide

/-- The first contact of the repository's own test scenario. -/
def johnContact : Contact :=
  { first_name := "John", last_name := "Smith", display_name := "John Smith"
  , email := "johndoe@example.com", phone_number := "123-456-7890" }

/-- A second contact, so the store can hold two rows. -/
def janeContact : Contact :=
  { first_name := "Jane", last_name := "Doe", display_name := "Jane Doe"
  , email := "jane@example.com", phone_number := "555-000-1111" }

/-- The store after creating two contacts (ids 1 and 2) through
`create_contact`; the connection's last-insert rowid is now 2 (the second
metadata row). -/
def dbTwoContacts : Db :=
  (ContactRepo.create_contact
    (ContactRepo.create_contact Db.init johnContact "2024-01-01T00:00:00.000Z").1
    janeContact "2024-01-01T00:00:01.000Z").1

/-- C3: with contacts 1 and 2 in the store, `delete_contact_by_id(1)`
removes row 1 but returns `Ok(2)` — the connection's last-insert rowid,
because `execute()` discards the rows of the `RETURNING id` clause — not
the deleted id 1. -/
theorem delete_returns_stale_rowid :
    ((1 : Int) ∈ dbTwoContacts.contacts.map IndexedContact.id) ∧
    (ContactRepo.delete_contact_by_id dbTwoContacts 1).2 = Except.ok 2 ∧
    (ContactRepo.delete_contact_by_id dbTwoContacts 1).1.contacts.map IndexedContact.id
      = [2] := by
  decide

/-- A patch that supplies only the email field. -/
def emailOnly (id : Int) (x : String) : ContactBuilder :=
  { id := id
  , update := { first_name := none, last_name := none, display_name := none
              , email := some x, phone_number := none } }

/-- C4 as stated is false: on the empty store, `update_contact` with target
id 1 (which does not exist) returns `Ok(())`, not `RepoError::NotFound`. -/
theorem update_missing_id_returns_ok :
    Db.init.contacts = [] ∧
    ContactRepo.update_contact Db.init (emailOnly 1 "new@example.com")
      = (Db.init, Except.ok ()) := by
  decide

/-- C4 amended: when no stored row has the patch's target id,
`update_contact` leaves the store unchanged and returns `Ok(())` (the
UPDATE matches no row and the row count is never checked), rather than
failing with `RepoError::NotFound`. -/
theorem update_contact_missing_id_noop (db : Db) (b : ContactBuilder)
    (hs : "contacts" ∈ db.schema) (h : ∀ r ∈ db.contacts, r.id ≠ b.id) :
    ContactRepo.update_contact db b = (db, Except.ok ()) := by
  unfold ContactRepo.update_contact
  rw [if_pos hs]
  have hmap : db.contacts.map (fun r =>
      if r.id == b.id then { r with contact := applyUpdates b.update r.contact } else r)
      = db.contacts := by
    conv_rhs => rw [← List.map_id db.contacts]
    exact List.map_congr_left (fun r hr => by simp [h r hr])
  rw [hmap]

/-- Witness for the amended C4 at the empty store and target id 1. -/
theorem update_contact_missing_id_noop_witness :
    ContactRepo.update_contact Db.init (emailOnly 1 "x@y.z") = (Db.init, Except.ok ()) :=
  update_contact_missing_id_noop Db.init (emailOnly 1 "x@y.z") (by decide) (by decide)

/-- C5 as stated is false for the delete half: on the empty store,
`delete_contact_by_id(1)` returns `Ok(0)` (the connection's last-insert
rowid), not `RepoError::NotFound`. -/
theorem delete_missing_id_returns_ok :
    Db.init.contacts = [] ∧
    (ContactRepo.delete_contact_by_id Db.init 1).2 = Except.ok 0 := by
  decide

/-- C5 amended: on a nonexistent id, `get_contact_by_id` fails with
`RepoError::NotFound` (its `fetch_one` finds no row), but
`delete_contact_by_id` succeeds, removing nothing and returning the
connection's last-insert rowid. -/
theorem get_errors_delete_succeeds_on_missing_id (db : Db) (id : Int)
    (hs : "contacts" ∈ db.schema) (h : ∀ r ∈ db.contacts, r.id ≠ id) :
    ContactRepo.get_contact_by_id db id = Except.error RepoError.notFound ∧
    ContactRepo.delete_contact_by_id db id = (db, Except.ok db.last_insert_rowid) := by
  constructor
  · unfold ContactRepo.get_contact_by_id
    rw [if_pos hs]
    have hfind : db.contacts.find? (fun r => r.id == id) = none :=
      List.find?_eq_none.mpr (fun r hr => by simp [h r hr])
    rw [hfind]
  · unfold ContactRepo.delete_contact_by_id
    rw [if_pos hs]
    have hfilter : db.contacts.filter (fun r => !(r.id == id)) = db.contacts :=
      List.filter_eq_self.mpr (fun r hr => by simp [h r hr])
    rw [hfilter]

/-- Witness for the amended C5 at the empty store and id 1. -/
theorem get_errors_delete_succeeds_witness :
    ContactRepo.get_contact_by_id Db.init 1 = Except.error RepoError.notFound ∧
    ContactRepo.delete_contact_by_id Db.init 1 = (Db.init, Except.ok Db.init.last_insert_rowid) :=
  get_errors_delete_succeeds_on_missing_id Db.init 1 (by decide) (by decide)

/-- The per-row UPDATE step keeps the row's id. -/
theorem updateRow_id (b : ContactBuilder) (r : IndexedContact) :
    (if r.id == b.id then { r with contact := applyUpdates b.update r.contact } else r).id
      = r.id := by
  by_cases h : r.id == b.id <;> simp [h]

/-- C6: if `get_contact_by_id` returns the row `⟨id, c⟩`, then after
applying a patch that supplies only `email := x`, re-reading that id
returns `c` with only its email replaced by `x`: `first_name`,
`last_name`, `display_name` and `phone_number` are unchanged. -/
theorem update_email_changes_only_email (db : Db) (id : Int) (c : Contact) (x : String)
    (h : ContactRepo.get_contact_by_id db id = Except.ok ⟨id, c⟩) :
    ContactRepo.get_contact_by_id (ContactRepo.update_contact db (emailOnly id x)).1 id
      = Except.ok ⟨id, { c with email := x }⟩ := by
  by_cases hs : "contacts" ∈ db.schema
  · unfold ContactRepo.get_contact_by_id at h
    rw [if_pos hs] at h
    cases hfind : db.contacts.find? (fun r => r.id == id) with
    | none => rw [hfind] at h; exact absurd h (by simp)
    | some r =>
      rw [hfind] at h
      have hr : r = ⟨id, c⟩ := by
        have := Except.ok.inj h
        exact this
      subst hr
      unfold ContactRepo.update_contact
      rw [if_pos hs]
      unfold ContactRepo.get_contact_by_id
      rw [if_pos hs]
      rw [List.find?_map]
      have hcomp : ((fun r : IndexedContact => r.id == id) ∘
          (fun r : IndexedContact => if r.id == (emailOnly id x).id then
            { r with contact := applyUpdates (emailOnly id x).update r.contact } else r))
          = (fun r : IndexedContact => r.id == id) := by
        funext r
        simp only [Function.comp]
        rw [updateRow_id]
      rw [hcomp, hfind]
      simp [emailOnly, applyUpdates]
  · unfold ContactRepo.get_contact_by_id at h
    rw [if_neg hs] at h
    exact absurd h (by simp)

/-- Witness for C6: a one-row store whose contact 1 is John; patching only
the email re-reads as John with the new email. -/
theorem update_email_changes_only_email_witness :
    ContactRepo.get_contact_by_id
      (ContactRepo.update_contact { Db.init with contacts := [⟨1, johnContact⟩] }
        (emailOnly 1 "john@new.example")).1 1
      = Except.ok ⟨1, { johnContact with email := "john@new.example" }⟩ :=
  update_email_changes_only_email { Db.init with contacts := [⟨1, johnContact⟩] }
    1 johnContact "john@new.example" (by decide)

/-- Applying the same COALESCE merge twice to one row equals applying it once. -/
theorem applyUpdates_idem (u : ContactUpdates) (c : Contact) :
    applyUpdates u (applyUpdates u c) = applyUpdates u c := by
  unfold applyUpdates
  cases u.first_name <;> cases u.last_name <;> cases u.display_name <;>
    cases u.email <;> cases u.phone_number <;> rfl

/-- C7: applying the same patch twice through `update_contact` leaves the
store in the same state as applying it once, for every store and patch. -/
theorem update_contact_idempotent (db : Db) (b : ContactBuilder) :
    (ContactRepo.update_contact (ContactRepo.update_contact db b).1 b).1
      = (ContactRepo.update_contact db b).1 := by
  by_cases hs : "contacts" ∈ db.schema
  · unfold ContactRepo.update_contact
    rw [if_pos hs]
    simp only
    rw [if_pos hs]
    simp only [List.map_map]
    congr 1
    apply List.map_congr_left
    intro r _
    simp only [Function.comp]
    by_cases h : r.id == b.id
    · rw [if_pos h]
      have : ({ r with contact := applyUpdates b.update r.contact } : IndexedContact).id
          = r.id := rfl
      rw [if_pos (by rw [this]; exact h)]
      rw [applyUpdates_idem]
    · rw [if_neg h, if_neg h]
  · unfold ContactRepo.update_contact
    rw [if_neg hs]
    simp only
    rw [if_neg hs]

/-- C9: `Contact.new` succeeds on four non-empty strings, deriving
`display_name` as first name, a space, then last name; it fails with a
`ValidationError` as soon as any of the four inputs is empty. -/
theorem contact_new_spec (f l e p : String) :
    (f ≠ "" ∧ l ≠ "" ∧ e ≠ "" ∧ p ≠ "" →
      Contact.new f l e p = Except.ok
        { first_name := f, last_name := l, display_name := f ++ " " ++ l
        , email := e, phone_number := p }) ∧
    (f = "" ∨ l = "" ∨ e = "" ∨ p = "" →
      Contact.new f l e p = Except.error ValidationError.emptyField) := by
  constructor
  · rintro ⟨h1, h2, h3, h4⟩
    unfold Contact.new
    rw [if_neg]
    rintro (h | h | h | h) <;> [exact h1 h; exact h2 h; exact h3 h; exact h4 h]
  · intro h
    unfold Contact.new
    rw [if_pos h]

/-- Witness for C9: the success branch at the repository's own test inputs
and the failure branch at an empty first name. -/
theorem contact_new_spec_witness :
    Contact.new "John" "Smith" "johndoe@example.com" "123-456-7890" = Except.ok
      { first_name := "John", last_name := "Smith", display_name := "John Smith"
      , email := "johndoe@example.com", phone_number := "123-456-7890" } ∧
    Contact.new "" "Smith" "johndoe@example.com" "123-456-7890"
      = Except.error ValidationError.emptyField :=
  ⟨(contact_new_spec "John" "Smith" "johndoe@example.com" "123-456-7890").1
      ⟨by decide, by decide, by decide, by decide⟩,
   (contact_new_spec "" "Smith" "johndoe@example.com" "123-456-7890").2 (Or.inl rfl)⟩

/-- C8: on a store whose schema has the `contacts` table,
`get_all_contacts` succeeds, returning the rows ordered ascending by id (a
permutation of the stored rows); the empty store yields `Ok([])`, not an
error; and `PostgresContactRepo::get_all` computes the same function. -/
theorem get_all_contacts_ordered (db : Db) (hs : "contacts" ∈ db.schema) :
    ContactRepo.get_all_contacts db = Except.ok (db.contacts.insertionSort idLe) ∧
    List.Sorted idLe (db.contacts.insertionSort idLe) ∧
    (db.contacts.insertionSort idLe).Perm db.contacts ∧
    (db.contacts = [] → ContactRepo.get_all_contacts db = Except.ok []) ∧
    PostgresContactRepo.get_all db = ContactRepo.get_all_contacts db := by
  refine ⟨?_, List.sorted_insertionSort idLe db.contacts,
    List.perm_insertionSort idLe db.contacts, ?_, rfl⟩
  · unfold ContactRepo.get_all_contacts
    rw [if_pos hs]
  · intro h
    unfold ContactRepo.get_all_contacts
    rw [if_pos hs, h]
    rfl

/-- A third contact, to fill a three-row store. -/
def jackContact : Contact :=
  { first_name := "Jack", last_name := "Brown", display_name := "Jack Brown"
  , email := "jack@example.com", phone_number := "555-222-3333" }

/-- A store holding rows with ids 3, 1, 2, inserted in that order. -/
def dbOutOfOrder : Db :=
  { Db.init with contacts := [⟨3, johnContact⟩, ⟨1, janeContact⟩, ⟨2, jackContact⟩] }

/-- Witness for C8 at a store whose rows were inserted with ids 3, 1, 2. -/
theorem get_all_contacts_ordered_witness :
    ContactRepo.get_all_contacts dbOutOfOrder
      = Except.ok (dbOutOfOrder.contacts.insertionSort idLe) ∧
    List.Sorted idLe (dbOutOfOrder.contacts.insertionSort idLe) ∧
    (dbOutOfOrder.contacts.insertionSort idLe).Perm dbOutOfOrder.contacts ∧
    (dbOutOfOrder.contacts = [] → ContactRepo.get_all_contacts dbOutOfOrder = Except.ok []) ∧
    PostgresContactRepo.get_all dbOutOfOrder = ContactRepo.get_all_contacts dbOutOfOrder :=
  get_all_contacts_ordered dbOutOfOrder (by decide)

/-- C10: `PostgresContactRepo::save_contact` appends only the contact row
and returns the store-assigned id; the metadata tables are untouched, so
the store it produces from the initial state violates the one-metadata-row-
per-contact invariant: this backend creates contacts with no metadata. -/
theorem save_contact_creates_no_metadata (db : Db) (c : Contact)
    (hs : "contacts" ∈ db.schema) :
    PostgresContactRepo.save_contact db c =
      ({ db with contacts := db.contacts ++ [⟨db.next_contact_id, c⟩]
               , next_contact_id := db.next_contact_id + 1 }
      , Except.ok db.next_contact_id) ∧
    (PostgresContactRepo.save_contact db c).1.contact_metadata = db.contact_metadata ∧
    ¬ Db.metaInvariant (PostgresContactRepo.save_contact Db.init c).1 := by
  refine ⟨?_, ?_, ?_⟩
  · unfold PostgresContactRepo.save_contact
    rw [if_pos hs]
  · unfold PostgresContactRepo.save_contact
    rw [if_pos hs]
  · intro hinv
    have hmem : (⟨1, c⟩ : IndexedContact) ∈ (PostgresContactRepo.save_contact Db.init c).1.contacts := by
      simp [PostgresContactRepo.save_contact, Db.init]
    have := hinv ⟨1, c⟩ hmem
    simp [PostgresContactRepo.save_contact, Db.init] at this

/-- Witness for C10 at the initial store and the test contact. -/
theorem save_contact_creates_no_metadata_witness :
    PostgresContactRepo.save_contact Db.init johnContact =
      ({ Db.init with
          contacts := Db.init.contacts ++ [⟨Db.init.next_contact_id, johnContact⟩]
        , next_contact_id := Db.init.next_contact_id + 1 }
      , Except.ok Db.init.next_contact_id) ∧
    (PostgresContactRepo.save_contact Db.init johnContact).1.contact_metadata
      = Db.init.contact_metadata ∧
    ¬ Db.metaInvariant (PostgresContactRepo.save_contact Db.init johnContact).1 :=
  save_contact_creates_no_metadata Db.init johnContact (by decide)

/-- The metadata row `create_metadata` builds for a fresh contact. -/
def defaultMetadata (contact_id : Int) (now : String) : Metadata :=
  { contact_id := contact_id, starred := false, is_archived := false, frequency := none
  , created_at := now, updated_at := now, last_seen_at := none
  , next_reminder_at := none, last_reminder_at := none }

/-- Unfolded behaviour of `create_contact` when both schema tables exist:
the contact row and its metadata row are appended and the new id returned. -/
theorem create_contact_eq (db : Db) (c : Contact) (now : String)
    (h1 : "contacts" ∈ db.schema) (h2 : "contact_metadata" ∈ db.schema) :
    ContactRepo.create_contact db c now =
      ({ db with
          contacts := db.contacts ++ [⟨db.next_contact_id, c⟩]
        , contact_metadata := db.contact_metadata ++ [defaultMetadata db.next_contact_id now]
        , next_contact_id := db.next_contact_id + 1
        , next_metadata_rowid := db.next_metadata_rowid + 1
        , last_insert_rowid := db.next_metadata_rowid }
      , Except.ok db.next_contact_id) := by
  unfold ContactRepo.create_contact Connection.create_metadata MetadataRepo.create
  rw [if_pos h1]
  dsimp only
  rw [if_pos h2]
  rfl

/-- C1: on a store with both schema tables, where all stored ids are below
the next assigned id and every contact owns exactly one metadata row,
`create_contact` succeeds returning an id, the store gains exactly one new
`contact_metadata` row for that id with `starred=false`,
`is_archived=false`, `frequency=None`, `created_at=updated_at=now` and the
optional timestamps absent, and afterwards every contact row still owns
exactly one metadata row. -/
theorem create_contact_creates_metadata_row (db : Db) (c : Contact) (now : String)
    (hs1 : "contacts" ∈ db.schema) (hs2 : "contact_metadata" ∈ db.schema)
    (hfresh : Db.fresh db) (hinv : Db.metaInvariant db) :
    ∃ id, (ContactRepo.create_contact db c now).2 = Except.ok id ∧
      (ContactRepo.create_contact db c now).1.contact_metadata =
        db.contact_metadata ++ [defaultMetadata id now] ∧
      Db.metaInvariant (ContactRepo.create_contact db c now).1 := by
  refine ⟨db.next_contact_id, ?_, ?_, ?_⟩
  · rw [create_contact_eq db c now hs1 hs2]
  · rw [create_contact_eq db c now hs1 hs2]
  · rw [create_contact_eq db c now hs1 hs2]
    intro r hr
    simp only at hr ⊢
    rcases List.mem_append.mp hr with hr | hr
    · rw [List.filter_append]
      have hlt : r.id < db.next_contact_id := hfresh.1 r hr
      have hbeq : (db.next_contact_id == r.id) = false := by
        simp only [beq_eq_false_iff_ne]
        exact ne_of_gt hlt
      have hsingle :
          List.filter (fun m => m.contact_id == r.id)
            [defaultMetadata db.next_contact_id now] = [] := by
        simp [defaultMetadata, List.filter, hbeq]
      rw [hsingle, List.append_nil]
      exact hinv r hr
    · have hre : r = ⟨db.next_contact_id, c⟩ := by simpa using hr
      subst hre
      rw [List.filter_append]
      have hold : db.contact_metadata.filter
          (fun m => m.contact_id == (⟨db.next_contact_id, c⟩ : IndexedContact).id) = [] := by
        apply List.filter_eq_nil_iff.mpr
        intro m hm
        simp only [beq_iff_eq]
        exact ne_of_lt (hfresh.2 m hm)
      rw [hold]
      simp [defaultMetadata, List.filter]

/-- Witness for C1 at the freshly initialised store and the test contact. -/
theorem create_contact_creates_metadata_row_witness :
    ∃ id, (ContactRepo.create_contact Db.init johnContact "2024-01-01T00:00:00.000Z").2
        = Except.ok id ∧
      (ContactRepo.create_contact Db.init johnContact "2024-01-01T00:00:00.000Z").1.contact_metadata
        = Db.init.contact_metadata ++ [defaultMetadata id "2024-01-01T00:00:00.000Z"] ∧
      Db.metaInvariant
        (ContactRepo.create_contact Db.init johnContact "2024-01-01T00:00:00.000Z").1 :=
  create_contact_creates_metadata_row Db.init johnContact "2024-01-01T00:00:00.000Z"
    (by decide) (by decide)
    (by simp [Db.fresh, Db.init]) (by simp [Db.metaInvariant, Db.init])
